import Mathlib

/-!
Verification development for the secure password manager's browser bridge:
token store, pairing, approval engine, payload encryption, domain-socket
framing, and TLS certificate lifecycle, shallowly embedded from the Python
sources under `src/secure_password_manager/`.

Python `dict`s keyed by strings are modelled as association lists with a
single binding per key; `dict` assignment is `insertKV`, `del`/`pop` is
`eraseKV`.  Wall-clock times (`time.time()`) are modelled as natural
numbers passed explicitly.  Persistence (`_save` writing the JSON file) is
modelled by a `file` field carrying the last written map.
-/

namespace PasswordManager

/-! ## Association-list maps (model of Python dict) -/

def lookupKV {α : Type} (k : String) : List (String × α) → Option α
  | [] => none
  | (k', v) :: rest => if k' = k then some v else lookupKV k rest

def eraseKV {α : Type} (k : String) : List (String × α) → List (String × α)
  | [] => []
  | (k', v) :: rest => if k' = k then eraseKV k rest else (k', v) :: eraseKV k rest

def insertKV {α : Type} (k : String) (v : α) (m : List (String × α)) :
    List (String × α) :=
  (k, v) :: eraseKV k m

/-! ## Token store (`browser_bridge.py`, class `TokenStore`) -/

structure TokenRecord where
  token : String
  fingerprint : String
  browser : String
  issuedAt : Nat
  expiresAt : Nat
deriving DecidableEq, Repr

structure TokenStore where
  /-- `self._tokens`, the in-memory dict keyed by token value. -/
  tokens : List (String × TokenRecord)
  /-- Contents of the persisted JSON backing file; `_save` copies `tokens` here. -/
  file : List (String × TokenRecord)
  /-- `self.ttl` in seconds (`ttl_hours * 3600`). -/
  ttl : Nat
deriving DecidableEq, Repr

/-- `TokenStore.issue_token`: mint a record with `expires_at = now + ttl`,
store it under the token key and persist.  The random
`secrets.token_urlsafe(32)` value is passed in as `freshToken`. -/
def TokenStore.issueToken (st : TokenStore) (fingerprint : String)
    (browser : Option String) (now : Nat) (freshToken : String) :
    TokenRecord × TokenStore :=
  let record : TokenRecord :=
    { token := freshToken
      fingerprint := fingerprint
      browser := browser.getD "unknown"
      issuedAt := now
      expiresAt := now + st.ttl }
  let tokens' := insertKV freshToken record st.tokens
  (record, { st with tokens := tokens', file := tokens' })

/-- `TokenStore.revoke`: pop the record and `_save` if present, else report
`False` without touching the map or the file. -/
def TokenStore.revoke (st : TokenStore) (token : String) : Bool × TokenStore :=
  if (lookupKV token st.tokens).isSome then
    let tokens' := eraseKV token st.tokens
    (true, { st with tokens := tokens', file := tokens' })
  else
    (false, st)

/-- `TokenStore.validate`: return the record unless absent, or expired
(`record["expires_at"] < time.time()`), in which case the expired record is
revoked (deleted and saved) and `None` is returned. -/
def TokenStore.validate (st : TokenStore) (token : String) (now : Nat) :
    Option TokenRecord × TokenStore :=
  match lookupKV token st.tokens with
  | none => (none, st)
  | some record =>
    if record.expiresAt < now then
      (none, (st.revoke token).2)
    else
      (some record, st)

/-- `TokenStore.list_tokens`: records with `expires_at > now`. -/
def TokenStore.listTokens (st : TokenStore) (now : Nat) : List TokenRecord :=
  (st.tokens.map Prod.snd).filter (fun rec => decide (now < rec.expiresAt))

/-! ## Approval engine (`approval_manager.py`) -/

inductive ApprovalDecision where
  | approved
  | denied
  | timeout
deriving DecidableEq, Repr

structure ApprovalRequest where
  requestId : String
  origin : String
  browser : String
  fingerprint : String
  timestamp : Nat
  entryCount : Nat
  usernamePreview : Option String
deriving DecidableEq, Repr

structure ApprovalResponse where
  requestId : String
  decision : ApprovalDecision
  remember : Bool
  timestamp : Nat
deriving DecidableEq, Repr

/-- One value of the `ApprovalStore._approvals` dict. -/
structure ApprovalEntry where
  approved : Bool
  timestamp : Nat
  origin : String
  fingerprint : String
deriving DecidableEq, Repr

/-- The dict key `f"\x7borigin\x7d:\x7bfingerprint\x7d"`. -/
def approvalKey (origin fingerprint : String) : String :=
  origin ++ ":" ++ fingerprint

/-- `ApprovalStore.is_approved`: `False` when the key is absent, otherwise the
stored `approved` flag (a remembered denial therefore also reads as `False`). -/
def isApproved (approvals : List (String × ApprovalEntry))
    (origin fingerprint : String) : Bool :=
  match lookupKV (approvalKey origin fingerprint) approvals with
  | none => false
  | some entry => entry.approved

/-- `ApprovalStore.remember_approval`: upsert the decision under the key and
save. -/
def rememberApproval (approvals : List (String × ApprovalEntry))
    (origin fingerprint : String) (approved : Bool) (now : Nat) :
    List (String × ApprovalEntry) :=
  insertKV (approvalKey origin fingerprint)
    { approved := approved, timestamp := now
      origin := origin, fingerprint := fingerprint } approvals

/-- `ApprovalStore.revoke_approval`: delete the key if present. -/
def revokeApproval (approvals : List (String × ApprovalEntry))
    (origin fingerprint : String) : Bool × List (String × ApprovalEntry) :=
  let key := approvalKey origin fingerprint
  if (lookupKV key approvals).isSome then
    (true, eraseKV key approvals)
  else
    (false, approvals)

/-- In-memory state of `ApprovalManager` (the `ApprovalStore` dict plus the
pending/response maps). -/
structure ApprovalManagerState where
  store : List (String × ApprovalEntry)
  pending : List (String × ApprovalRequest)
  responses : List (String × ApprovalResponse)
deriving DecidableEq, Repr

/-- A registered prompt handler.  `none` as its result models the handler
raising an exception (caught by `request_approval`). -/
abbrev PromptHandler := ApprovalRequest → Option ApprovalResponse

/-- Result of `request_approval`, instrumented with the ghost flag
`promptInvoked`, true exactly when the Python code reaches the
`self._prompt_handler(request)` call (a handler is registered and no
remembered approval short-circuits the request). -/
structure RequestApprovalResult where
  resp : ApprovalResponse
  state : ApprovalManagerState
  promptInvoked : Bool
deriving Repr

/-- `ApprovalManager.request_approval`.  `handler` is `self._prompt_handler`
(`none` when unregistered); `now` is `time.time()` and `nowMs` the millisecond
clock used to build the request id. -/
def requestApproval (m : ApprovalManagerState) (handler : Option PromptHandler)
    (origin browser fingerprint : String) (entryCount : Nat)
    (usernamePreview : Option String) (now nowMs : Nat) :
    RequestApprovalResult :=
  if isApproved m.store origin fingerprint then
    { resp := { requestId := "auto", decision := .approved
                remember := true, timestamp := now }
      state := m
      promptInvoked := false }
  else
    let requestId := origin ++ "_" ++ toString nowMs
    let request : ApprovalRequest :=
      { requestId := requestId, origin := origin, browser := browser
        fingerprint := fingerprint, timestamp := now
        entryCount := entryCount, usernamePreview := usernamePreview }
    let pending1 := insertKV requestId request m.pending
    let timeoutResult (invoked : Bool) : RequestApprovalResult :=
      let response : ApprovalResponse :=
        { requestId := requestId, decision := .timeout
          remember := false, timestamp := now }
      { resp := response
        state := { m with pending := eraseKV requestId pending1
                          responses := insertKV requestId response m.responses }
        promptInvoked := invoked }
    match handler with
    | none => timeoutResult false
    | some h =>
      match h request with
      | none => timeoutResult true
      | some response =>
        let store1 :=
          if response.remember then
            rememberApproval m.store origin fingerprint
              (decide (response.decision = .approved)) now
          else m.store
        { resp := response
          state := { store := store1
                     pending := eraseKV requestId pending1
                     responses := insertKV requestId response m.responses }
          promptInvoked := true }

/-! ## Pairing and the two pair handlers (`browser_bridge.py`) -/

structure PairingSession where
  code : String
  expiresAt : Nat
deriving DecidableEq, Repr

/-- `BrowserBridgeService` state relevant to pairing: `self._pairing` and the
token store. -/
structure BridgeState where
  pairing : Option PairingSession
  tokenStore : TokenStore
deriving DecidableEq, Repr

/-- `BrowserBridgeService.generate_pairing_code`: install a fresh session with
`expires_at = now + pairing_window`; the random 6-digit code is `freshCode`. -/
def generatePairingCode (st : BridgeState) (windowSeconds : Nat) (now : Nat)
    (freshCode : String) : BridgeState :=
  { st with pairing := some { code := freshCode, expiresAt := now + windowSeconds } }

inductive PairOutcome where
  /-- `HTTPException(410)` — "No active pairing session". -/
  | gone
  /-- `HTTPException(401)` — "Invalid pairing code". -/
  | unauthorized
  /-- 200 with `\x7btoken, expires_at\x7d`. -/
  | ok (token : String) (expiresAt : Nat)
deriving DecidableEq, Repr

/-- HTTP `POST /v1/pair` (`pair_endpoint`): 410 when no session or it has
expired, 401 on a code mismatch, otherwise issue a token and clear the
session.  Raising an `HTTPException` leaves the state untouched. -/
def pairEndpoint (st : BridgeState) (code fingerprint : String)
    (browser : Option String) (now : Nat) (freshToken : String) :
    PairOutcome × BridgeState :=
  match st.pairing with
  | none => (.gone, st)
  | some session =>
    if session.expiresAt < now then
      (.gone, st)
    else if code ≠ session.code then
      (.unauthorized, st)
    else
      let (record, ts') := st.tokenStore.issueToken fingerprint browser now freshToken
      (.ok record.token record.expiresAt, { pairing := none, tokenStore := ts' })

/-- Domain-socket `/v1/pair` branch of `_handle_socket_request`: same checks,
but reported as status 400 ("No active pairing code") and 403 ("Invalid
pairing code").  On success it returns status 200 with the token. -/
def socketPair (st : BridgeState) (code fingerprint : String)
    (browser : Option String) (now : Nat) (freshToken : String) :
    (Nat × Option (String × Nat)) × BridgeState :=
  match st.pairing with
  | none => ((400, none), st)
  | some session =>
    if now > session.expiresAt then
      ((400, none), st)
    else if session.code ≠ code then
      ((403, none), st)
    else
      let (record, ts') := st.tokenStore.issueToken fingerprint browser now freshToken
      ((200, some (record.token, record.expiresAt)),
        { pairing := none, tokenStore := ts' })

/-- HTTP status code actually sent by `pair_endpoint`. -/
def pairOutcomeStatus : PairOutcome → Nat
  | .gone => 410
  | .unauthorized => 401
  | .ok _ _ => 200

/-- Success/failure classification of a pair attempt, shared by both
transports: 0 = no active session, 1 = code mismatch, 2 = token issued. -/
def pairClass : Nat → Nat
  | 410 => 0
  | 400 => 0
  | 401 => 1
  | 403 => 1
  | _ => 2

/-! ## Origin matching for credential queries (`credentials_query` and the
socket query branch).  Strings are handled as character lists; `str.lower()`
is per-character lowering and Python's `in` is the substring test. -/

def toLowerStr (s : List Char) : List Char := s.map Char.toLower

/-- Python `str.startswith` on character lists. -/
def isPre : List Char → List Char → Bool
  | [], _ => true
  | _ :: _, [] => false
  | a :: as, b :: bs => if a = b then isPre as bs else false

/-- Python `needle in hay` (substring containment; an empty needle is always
contained). -/
def isSub (needle : List Char) : List Char → Bool
  | [] => needle.isEmpty
  | b :: bs => isPre needle (b :: bs) || isSub needle bs

/-- Recursion worker for `eraseOcc`; `fuel` only forces structural
termination and is always at least the length of the remaining text, so the
fuel-exhausted branch is unreachable. -/
def eraseOccAux (needle : List Char) : Nat → List Char → List Char
  | _, [] => []
  | 0, hay => hay
  | fuel + 1, b :: bs =>
    if needle ≠ [] ∧ isPre needle (b :: bs) = true then
      eraseOccAux needle fuel ((b :: bs).drop needle.length)
    else
      b :: eraseOccAux needle fuel bs

/-- Python `hay.replace(needle, "")`: delete every (non-overlapping,
left-to-right) occurrence of `needle`. -/
def eraseOcc (needle : List Char) (hay : List Char) : List Char :=
  eraseOccAux needle hay.length hay

/-- `origin.replace("https://", "").replace("http://", "").split("/")[0]`. -/
def originDomainOf (origin : List Char) : List Char :=
  (eraseOcc "http://".toList (eraseOcc "https://".toList origin)).takeWhile
    (fun c => c ≠ '/')

/-- `origin_domain.split(".")[0] if "." in origin_domain else origin_domain`. -/
def originNameOf (originDomain : List Char) : List Char :=
  if originDomain.contains '.' then
    originDomain.takeWhile (fun c => c ≠ '.')
  else
    originDomain

/-- The match test both query handlers apply to each vault entry: the
(lowercased) site must contain the origin, its domain, or the domain's first
label, or the (lowercased) notes must contain the origin or the domain.
The first label is *not* tested against the notes.  The HTTP handler passes
the lowercased request origin here, the socket handler the raw origin. -/
def matchesOrigin (origin website notesField : List Char) : Bool :=
  let site := toLowerStr website
  let notes := toLowerStr notesField
  let originDomain := originDomainOf origin
  let originName := originNameOf originDomain
  isSub origin site || isSub originDomain site || isSub originName site ||
    isSub origin notes || isSub originDomain notes

/-- One row of `get_passwords()` as used by the query handlers; `decryptOk`
models whether `decrypt_password(encrypted)` succeeds (failures are skipped). -/
structure VaultEntry where
  entryId : Nat
  website : List Char
  username : List Char
  notes : List Char
  decryptOk : Bool
deriving DecidableEq, Repr

/-- The entries `credentials_query` collects for a request origin: entries
passing the match test whose password decrypts. -/
def queryMatches (rawOrigin : List Char) (vault : List VaultEntry) :
    List VaultEntry :=
  vault.filter (fun e =>
    matchesOrigin (toLowerStr rawOrigin) e.website e.notes && e.decryptOk)

/-- The entries the socket query branch collects: identical except the raw
origin is used without lowercasing. -/
def socketQueryMatches (rawOrigin : List Char) (vault : List VaultEntry) :
    List VaultEntry :=
  vault.filter (fun e =>
    matchesOrigin rawOrigin e.website e.notes && e.decryptOk)

/-- Substring containment as a proposition: `needle` occurs contiguously in
`hay`. -/
def SubStr (needle hay : List Char) : Prop :=
  ∃ pre post, hay = pre ++ needle ++ post

/-- Matching rule as the spec sentence reads (refinement comparison only):
site **or notes** contains the origin, the bare domain, or the domain's
first label. -/
def specClaimMatches (origin website notesField : List Char) : Bool :=
  let site := toLowerStr website
  let notes := toLowerStr notesField
  let originDomain := originDomainOf origin
  let originName := originNameOf originDomain
  isSub origin site || isSub originDomain site || isSub originName site ||
    isSub origin notes || isSub originDomain notes || isSub originName notes

/-! ## Domain-socket framing (`domain_socket.py`) -/

/-- `_recv_exact`: read up to `n` bytes, stopping early if the stream is
exhausted (connection closed). -/
def recvExact (input : List Nat) (n : Nat) : List Nat := input.take n

/-- `int.from_bytes(bs, byteorder="big")`. -/
def fromBytesBE (bs : List Nat) : Nat :=
  bs.foldl (fun acc b => acc * 256 + b) 0

/-- The 10 MiB sanity limit in `receive_message`. -/
def MAX_MESSAGE_BYTES : Nat := 10 * 1024 * 1024

inductive RecvError where
  /-- `OSError("Connection closed before receiving length")`. -/
  | closedBeforeLength
  /-- `ValueError("Message too large: ...")`. -/
  | messageTooLarge (declared : Nat)
  /-- `OSError("Connection closed before receiving complete message")`. -/
  | closedBeforeBody
deriving DecidableEq, Repr

/-- Result of `receive_message` on a byte stream, together with how many
bytes were consumed from the stream before returning or raising. -/
structure RecvResult where
  result : Except RecvError (List Nat)
  consumed : Nat
deriving Repr

/-- `receive_message`: read a 4-byte big-endian length prefix, raise
`ValueError` if the declared length exceeds 10 MiB *before* reading any body
bytes, otherwise read the body.  The trailing `json.loads` is outside this
framing model; the raw message bytes are returned. -/
def receiveMessage (input : List Nat) : RecvResult :=
  let lengthData := recvExact input 4
  if lengthData = [] then
    { result := .error .closedBeforeLength, consumed := 0 }
  else
    let messageLength := fromBytesBE lengthData
    if messageLength > MAX_MESSAGE_BYTES then
      { result := .error (.messageTooLarge messageLength)
        consumed := lengthData.length }
    else
      let rest := input.drop lengthData.length
      let data := recvExact rest messageLength
      if data = [] then
        { result := .error .closedBeforeBody
          consumed := lengthData.length + data.length }
      else
        { result := .ok data, consumed := lengthData.length + data.length }

/-! ## Payload encryption (`payload_encryption.py`)

The repository code composes `json.dumps`, HKDF key derivation keyed by the
random nonce, and AES-256-GCM from the `cryptography` library, plus a
transparent base64 wire encoding.  The library primitives are modelled
abstractly by an `AEADModel`: its operation fields stand for HKDF,
the GCM encryptor (ciphertext and tag), the GCM decryptor, and JSON
serialization, and its proof fields state the contracts of an ideal
authenticated cipher (decryption succeeds exactly on genuine
ciphertext/tag pairs, tags bind the key) and of JSON round-tripping.
`PayloadEncryption.encrypt`/`decrypt` below follow the repository functions
over this model; the base64 encoding, being a bijection applied uniformly
to the envelope fields, is omitted. -/

structure AEADModel where
  Key : Type
  Tag : Type
  Payload : Type
  /-- HKDF-SHA256 over the 32-byte shared secret with the nonce as info. -/
  hkdf : List Nat → List Nat → Key
  /-- GCM ciphertext of the plaintext bytes. -/
  encC : Key → List Nat → List Nat → List Nat
  /-- GCM authentication tag. -/
  encT : Key → List Nat → List Nat → Tag
  /-- GCM decryption; `none` models the `InvalidTag` exception. -/
  dec : Key → List Nat → List Nat → Tag → Option (List Nat)
  /-- `json.dumps(payload).encode("utf-8")`. -/
  dumps : Payload → List Nat
  /-- `json.loads`; `none` models a parse failure. -/
  loads : List Nat → Option Payload
  dec_correct : ∀ k n p, dec k n (encC k n p) (encT k n p) = some p
  dec_reject : ∀ k n c t,
    (∀ p, ¬(c = encC k n p ∧ t = encT k n p)) → dec k n c t = none
  encC_inj : ∀ k n p p', encC k n p = encC k n p' → p = p'
  encT_inj : ∀ k n p p', encT k n p = encT k n p' → p = p'
  tag_binds_secret : ∀ s s' n p p',
    s ≠ s' → encT (hkdf s n) n p ≠ encT (hkdf s' n) n p'
  loads_dumps : ∀ p, loads (dumps p) = some p

/-- The `\x7bciphertext, nonce, tag\x7d` envelope (base64 layer elided). -/
structure Envelope (M : AEADModel) where
  ciphertext : List Nat
  nonce : List Nat
  tag : M.Tag

/-- The `PayloadEncryption.__init__` length check on the shared secret. -/
abbrev validSecret (sharedSecret : List Nat) : Prop := sharedSecret.length = 32

/-- `PayloadEncryption.encrypt`: serialize, derive the per-message key from
the shared secret and the random nonce (passed in explicitly), and apply the
authenticated cipher. -/
def PayloadEncryption.encrypt (M : AEADModel) (sharedSecret : List Nat)
    (nonce : List Nat) (payload : M.Payload) : Envelope M :=
  let plaintext := M.dumps payload
  let derivedKey := M.hkdf sharedSecret nonce
  { ciphertext := M.encC derivedKey nonce plaintext
    nonce := nonce
    tag := M.encT derivedKey nonce plaintext }

/-- `PayloadEncryption.decrypt`: re-derive the key from the envelope nonce,
decrypt, and parse the plaintext as JSON; any failure raises (`none`). -/
def PayloadEncryption.decrypt (M : AEADModel) (sharedSecret : List Nat)
    (env : Envelope M) : Option M.Payload :=
  let derivedKey := M.hkdf sharedSecret env.nonce
  match M.dec derivedKey env.nonce env.ciphertext env.tag with
  | none => none
  | some plaintext => M.loads plaintext

/-! ## TLS certificate lifecycle (`tls.py`) -/

/-- Certificate material on disk, reduced to what the claims observe: the
SHA-256 fingerprint identity and the expiry day. -/
structure CertMaterial where
  fingerprint : Nat
  notAfterDays : Int
deriving DecidableEq, Repr

/-- The certificate/key files under the config dir (`none` = absent or
unreadable, which `generate_self_signed_cert` treats identically). -/
structure CertState where
  material : Option CertMaterial
deriving DecidableEq, Repr

/-- `generate_self_signed_cert` (the `ensure_certificate` operation): if
material exists and `days_remaining > 30`, return it with no side effects;
otherwise write fresh material valid for `validityDays` whose random serial
yields the fingerprint `freshFingerprint`. -/
def ensureCertificate (st : CertState) (nowDays : Int) (validityDays : Int)
    (freshFingerprint : Nat) : CertMaterial × CertState :=
  let regenerated : CertMaterial :=
    { fingerprint := freshFingerprint, notAfterDays := nowDays + validityDays }
  match st.material with
  | some material =>
    if material.notAfterDays - nowDays > 30 then
      (material, st)
    else
      (regenerated, { material := some regenerated })
  | none => (regenerated, { material := some regenerated })

/-! ## Concrete fixtures used by closed theorems -/

/-- A concrete instantiation of the abstract AEAD/JSON model, showing the
`AEADModel` contracts are satisfiable: the tag records the key, nonce and
ciphertext, and decryption checks it. -/
def concreteAEAD : AEADModel where
  Key := List Nat × List Nat
  Tag := (List Nat × List Nat) × List Nat × List Nat
  Payload := List Nat
  hkdf s n := (s, n)
  encC _ _ p := p
  encT k n p := (k, n, p)
  dec k n c t := if t = (k, n, c) then some c else none
  dumps p := p
  loads bs := some bs
  dec_correct := by
    intro k n p
    simp
  dec_reject := by
    intro k n c t h
    by_cases ht : t = (k, n, c)
    · exact absurd ⟨rfl, ht⟩ (h c)
    · simp [ht]
  encC_inj := by
    intro k n p p' h
    exact h
  encT_inj := by
    intro k n p p' h
    simpa using h
  tag_binds_secret := by
    intro s s' n p p' hne h
    apply hne
    have := congrArg (fun t => t.1.1) h
    simpa using this
  loads_dumps := by
    intro p
    rfl

/-- Token record expiring exactly at time 100. -/
def recAtBoundary : TokenRecord :=
  { token := "t", fingerprint := "fp", browser := "chrome"
    issuedAt := 40, expiresAt := 100 }

/-- Token store holding exactly `recAtBoundary`, consistent on disk. -/
def storeAtBoundary : TokenStore :=
  { tokens := [("t", recAtBoundary)], file := [("t", recAtBoundary)], ttl := 3600 }

/-- Manager state with nothing remembered and nothing in flight. -/
def emptyManagerState : ApprovalManagerState :=
  { store := [], pending := [], responses := [] }

/-- Manager state remembering a *denial* for `("https://site.example", "fp1")`,
as written by `remember_approval(..., approved=False)`. -/
def deniedManagerState : ApprovalManagerState :=
  { store := rememberApproval [] "https://site.example" "fp1" false 10
    pending := [], responses := [] }

/-- Manager state remembering an *approval* for `("https://site.example", "fp1")`. -/
def approvedManagerState : ApprovalManagerState :=
  { store := rememberApproval [] "https://site.example" "fp1" true 10
    pending := [], responses := [] }

/-- A prompt handler that approves without remembering (stands for a user
clicking "allow once"). -/
def approveOnceHandler : PromptHandler :=
  fun request =>
    some { requestId := request.requestId, decision := .approved
           remember := false, timestamp := request.timestamp }

/-- A prompt handler that denies and asks to be remembered. -/
def denyRememberHandler : PromptHandler :=
  fun request =>
    some { requestId := request.requestId, decision := .denied
           remember := true, timestamp := request.timestamp }

/-- Vault entry whose website is `https://github.com/login`. -/
def ghEntry : VaultEntry :=
  { entryId := 1, website := "https://github.com/login".toList
    username := "alice".toList, notes := [], decryptOk := true }

/-- Vault entry whose website is `example.com`. -/
def exEntry : VaultEntry :=
  { entryId := 2, website := "example.com".toList
    username := "bob".toList, notes := [], decryptOk := true }

/-- Vault entry whose notes (but not site) contain the bare first label
`github` of the origin `github.com`. -/
def labelNotesEntry : VaultEntry :=
  { entryId := 3, website := "example.org".toList
    username := "carol".toList, notes := "github notes".toList, decryptOk := true }

/-- Bridge state with no active pairing session. -/
def noSessionState : BridgeState :=
  { pairing := none
    tokenStore := { tokens := [], file := [], ttl := 86400 } }

/-- Bridge state with a live pairing session for code `482913`. -/
def liveSessionState : BridgeState :=
  { pairing := some { code := "482913", expiresAt := 120 }
    tokenStore := { tokens := [], file := [], ttl := 86400 } }

end PasswordManager

namespace PasswordManager

/-! # Theorems -/

/-! ## Association-list lemmas -/

theorem lookupKV_eraseKV_self {α : Type} (k : String) (m : List (String × α)) :
    lookupKV k (eraseKV k m) = none := by
  induction m with
  | nil => rfl
  | cons p rest ih =>
    obtain ⟨k', v⟩ := p
    by_cases h : k' = k
    · simp [eraseKV, h, ih]
    · simp [eraseKV, lookupKV, h, ih]

theorem mem_of_mem_eraseKV {α : Type} {k : String} {p : String × α}
    {m : List (String × α)} (h : p ∈ eraseKV k m) : p ∈ m := by
  induction m with
  | nil => simp [eraseKV] at h
  | cons q rest ih =>
    obtain ⟨k', v⟩ := q
    by_cases hk : k' = k
    · simp only [eraseKV, if_pos hk] at h
      exact List.mem_cons_of_mem _ (ih h)
    · simp only [eraseKV, if_neg hk, List.mem_cons] at h
      rcases h with h | h
      · exact h ▸ List.mem_cons_self _ _
      · exact List.mem_cons_of_mem _ (ih h)

theorem key_ne_of_mem_eraseKV {α : Type} {k : String} {p : String × α}
    {m : List (String × α)} (h : p ∈ eraseKV k m) : p.1 ≠ k := by
  induction m with
  | nil => simp [eraseKV] at h
  | cons q rest ih =>
    obtain ⟨k', v⟩ := q
    by_cases hk : k' = k
    · simp only [eraseKV, if_pos hk] at h
      exact ih h
    · simp only [eraseKV, if_neg hk, List.mem_cons] at h
      rcases h with h | h
      · subst h
        exact hk
      · exact ih h

theorem isPre_iff (needle hay : List Char) :
    isPre needle hay = true ↔ ∃ post, hay = needle ++ post := by
  induction needle generalizing hay with
  | nil => simp [isPre]
  | cons a as ih =>
    cases hay with
    | nil =>
      simp [isPre]
    | cons b bs =>
      constructor
      · intro h
        by_cases hab : a = b
        · subst hab
          simp only [isPre, if_pos rfl] at h
          obtain ⟨post, hpost⟩ := (ih bs).mp h
          exact ⟨post, by simp [hpost]⟩
        · simp [isPre, hab] at h
      · rintro ⟨post, hpost⟩
        simp only [List.cons_append, List.cons.injEq] at hpost
        obtain ⟨hb, hbs⟩ := hpost
        subst hb
        simp only [isPre, if_pos rfl]
        exact (ih bs).mpr ⟨post, hbs⟩

theorem isSub_iff (needle hay : List Char) :
    isSub needle hay = true ↔ SubStr needle hay := by
  induction hay with
  | nil =>
    simp only [isSub, List.isEmpty_iff, SubStr]
    constructor
    · intro h
      exact ⟨[], [], by simp [h]⟩
    · rintro ⟨pre, post, hsplit⟩
      have h0 : pre ++ (needle ++ post) = [] := by
        rw [← List.append_assoc]
        exact hsplit.symm
      have h1 := (List.append_eq_nil.mp h0).2
      exact (List.append_eq_nil.mp h1).1
  | cons b bs ih =>
    simp only [isSub, Bool.or_eq_true]
    constructor
    · rintro (hp | hs)
      · obtain ⟨post, hpost⟩ := (isPre_iff needle (b :: bs)).mp hp
        exact ⟨[], post, by simp [hpost]⟩
      · obtain ⟨pre, post, hsplit⟩ := (ih).mp hs
        exact ⟨b :: pre, post, by simp [hsplit]⟩
    · rintro ⟨pre, post, hsplit⟩
      cases pre with
      | nil =>
        left
        exact (isPre_iff needle (b :: bs)).mpr ⟨post, by simpa using hsplit⟩
      | cons p ps =>
        right
        simp only [List.cons_append, List.cons.injEq] at hsplit
        exact (ih).mpr ⟨ps, post, hsplit.2⟩

/-! ## Claim theorems -/

/-- Claim C10: `TokenStore.revoke` returns `True` exactly when the token is
present in the store; on an absent token it returns `False` and leaves both
the in-memory token map and the persisted backing file completely unchanged
(no rewrite occurs). -/
theorem C10_revoke_absent_no_rewrite (st : TokenStore) (token : String) :
    ((st.revoke token).1 = true ↔ (lookupKV token st.tokens).isSome = true)
    ∧ ((lookupKV token st.tokens).isSome = false → (st.revoke token).2 = st) := by
  constructor
  · by_cases h : (lookupKV token st.tokens).isSome = true
    · simp [TokenStore.revoke, h]
    · simp [TokenStore.revoke, h]
  · intro h
    simp [TokenStore.revoke, h]

/-- Witness for C10 at a concrete store and an absent token. -/
theorem C10_witness :
    (lookupKV "absent" storeAtBoundary.tokens).isSome = false
    ∧ (storeAtBoundary.revoke "absent").2 = storeAtBoundary :=
  ⟨by decide,
    (C10_revoke_absent_no_rewrite storeAtBoundary "absent").2 (by decide)⟩

/-- Claim C3 (counterexample): at `now = expires_at` the token is still
returned by `validate`, although `now < expires_at` fails — the claimed
strict-inequality characterization is wrong at the boundary. -/
theorem C3_counterexample :
    ¬(((storeAtBoundary.validate "t" 100).1 = some recAtBoundary) ↔
        100 < recAtBoundary.expiresAt) := by
  decide

/-- Claim C3 (amended): `validate` returns the stored record iff
`now ≤ expires_at` (the comparison in the code is `expires_at < now`, so the
record is still accepted at `now = expires_at`); when the record is expired
(`expires_at < now`) `validate` returns `None`, deletes the record, and an
immediately following `list_tokens` call does not include it. -/
theorem C3_validate_boundary (st : TokenStore) (token : String) (now : Nat)
    (rec : TokenRecord) (hmem : lookupKV token st.tokens = some rec)
    (hinv : ∀ p ∈ st.tokens, p.2.token = p.1) :
    ((st.validate token now).1 = some rec ↔ now ≤ rec.expiresAt)
    ∧ (rec.expiresAt < now →
        (st.validate token now).1 = none
        ∧ lookupKV token (st.validate token now).2.tokens = none
        ∧ ∀ r ∈ (st.validate token now).2.listTokens now, r.token ≠ token) := by
  have hval : st.validate token now =
      if rec.expiresAt < now then (none, (st.revoke token).2)
      else (some rec, st) := by
    simp [TokenStore.validate, hmem]
  have hrev : (st.revoke token).2.tokens = eraseKV token st.tokens := by
    simp [TokenStore.revoke, hmem]
  by_cases hexp : rec.expiresAt < now
  · constructor
    · constructor
      · intro habs
        rw [hval, if_pos hexp] at habs
        simp at habs
      · intro hle
        omega
    · intro _
      refine ⟨?_, ?_, ?_⟩
      · rw [hval, if_pos hexp]
      · rw [hval, if_pos hexp]
        show lookupKV token (st.revoke token).2.tokens = none
        rw [hrev]
        exact lookupKV_eraseKV_self token st.tokens
      · intro r hr
        rw [hval, if_pos hexp] at hr
        have hr' : r ∈ ((st.revoke token).2.tokens.map Prod.snd).filter
            (fun q => decide (now < q.expiresAt)) := hr
        rw [hrev] at hr'
        have hr'' := List.mem_filter.mp hr'
        obtain ⟨p, hp, hpr⟩ := List.mem_map.mp hr''.1
        have hkey := key_ne_of_mem_eraseKV hp
        have htok := hinv p (mem_of_mem_eraseKV hp)
        rw [← hpr]
        rw [htok]
        exact hkey
  · constructor
    · constructor
      · intro _
        omega
      · intro _
        rw [hval, if_neg hexp]
    · intro hcon
      exact absurd hcon hexp

/-- Witness for C3: the boundary store with an expired clock (`now = 150`). -/
theorem C3_witness :
    lookupKV "t" storeAtBoundary.tokens = some recAtBoundary
    ∧ recAtBoundary.expiresAt < 150
    ∧ ((storeAtBoundary.validate "t" 150).1 = none
        ∧ lookupKV "t" (storeAtBoundary.validate "t" 150).2.tokens = none
        ∧ ∀ r ∈ (storeAtBoundary.validate "t" 150).2.listTokens 150,
            r.token ≠ "t") :=
  ⟨by decide, by decide,
    (C3_validate_boundary storeAtBoundary "t" 150 recAtBoundary (by decide)
      (by decide)).2 (by decide)⟩

/-- Claim C5: a consumed or expired pairing session is never accepted again.
Once a pair call has succeeded (issuing a token and clearing the pairing
session), every subsequent pair call — whatever code it presents — receives
410 Gone with the state (in particular the token store) unchanged, so no
second token is ever issued for the consumed session; and a pair call
against a session that has expired fails with 410 Gone and an unchanged
state at that time and at every later time. -/
theorem C5_pairing_single_use (st : BridgeState) (code fingerprint : String)
    (browser : Option String) (now : Nat) (freshToken : String) :
    (∀ st' token expiresAt,
      pairEndpoint st code fingerprint browser now freshToken =
          (.ok token expiresAt, st') →
        ∀ code2 fingerprint2 browser2 now2 freshToken2,
          pairEndpoint st' code2 fingerprint2 browser2 now2 freshToken2 =
            (.gone, st'))
    ∧ (∀ session, st.pairing = some session → session.expiresAt < now →
        ∀ now2, now ≤ now2 →
          ∀ code2 fingerprint2 browser2 freshToken2,
            pairEndpoint st code2 fingerprint2 browser2 now2 freshToken2 =
              (.gone, st)) := by
  constructor
  · intro st' token expiresAt hsucc
    have hnone : st'.pairing = none := by
      cases hp : st.pairing with
      | none =>
        rw [pairEndpoint, hp] at hsucc
        simp at hsucc
      | some session =>
        simp only [pairEndpoint, hp] at hsucc
        by_cases h1 : session.expiresAt < now
        · rw [if_pos h1] at hsucc
          simp at hsucc
        · rw [if_neg h1] at hsucc
          by_cases h2 : code ≠ session.code
          · rw [if_pos h2] at hsucc
            simp at hsucc
          · rw [if_neg h2] at hsucc
            have hst := congrArg Prod.snd hsucc
            simp at hst
            rw [← hst]
    intro code2 fingerprint2 browser2 now2 freshToken2
    rw [pairEndpoint, hnone]
  · intro session hsess hexp now2 hle code2 fingerprint2 browser2 freshToken2
    simp only [pairEndpoint, hsess]
    rw [if_pos (by omega : session.expiresAt < now2)]

/-- Witness for C5: pairing succeeds with code 482913 and a replay of the
same code is 410 Gone with the state untouched; and once the 120-second
session has expired (at time 200) the pair call itself is 410 Gone with the
state untouched. -/
theorem C5_witness :
    (pairEndpoint
        (pairEndpoint liveSessionState "482913" "abc" (some "Chrome") 10
          "tok1").2
        "482913" "abc" (some "Chrome") 20 "tok2" =
      (.gone,
        (pairEndpoint liveSessionState "482913" "abc" (some "Chrome") 10
          "tok1").2))
    ∧ pairEndpoint liveSessionState "482913" "abc" (some "Chrome") 200 "tok3" =
        (.gone, liveSessionState) :=
  ⟨(C5_pairing_single_use liveSessionState "482913" "abc" (some "Chrome") 10
      "tok1").1 _ "tok1" 86410 (by decide)
      "482913" "abc" (some "Chrome") 20 "tok2",
    (C5_pairing_single_use liveSessionState "482913" "abc" (some "Chrome") 200
      "tok3").2 { code := "482913", expiresAt := 120 } rfl (by decide)
      200 (by decide) "482913" "abc" (some "Chrome") "tok3"⟩

/-- Claim C1 (code-bug evidence): after `request_approval` records a handler
response with `remember=true` and decision DENIED for
`("https://site.example", "fp1")`, a subsequent `request_approval` for the
same pair *still invokes the registered prompt handler* and returns its
decision (APPROVED here) — there is no auto-reject path, because
`ApprovalStore.is_approved` collapses a remembered denial to `False`. -/
theorem C1_remembered_denial_still_prompts :
    ((requestApproval emptyManagerState (some denyRememberHandler)
        "https://site.example" "Chrome" "fp1" 2 none 10 10000).resp.decision =
      ApprovalDecision.denied)
    ∧ ((requestApproval emptyManagerState (some denyRememberHandler)
        "https://site.example" "Chrome" "fp1" 2 none 10 10000).resp.remember =
      true)
    ∧ ((requestApproval
        (requestApproval emptyManagerState (some denyRememberHandler)
          "https://site.example" "Chrome" "fp1" 2 none 10 10000).state
        (some approveOnceHandler)
        "https://site.example" "Chrome" "fp1" 2 none 100 100000).promptInvoked =
      true)
    ∧ ((requestApproval
        (requestApproval emptyManagerState (some denyRememberHandler)
          "https://site.example" "Chrome" "fp1" 2 none 10 10000).state
        (some approveOnceHandler)
        "https://site.example" "Chrome" "fp1" 2 none 100 100000).resp.decision =
      ApprovalDecision.approved) := by
  decide

/-- Claim C2 (counterexample): with *no* prompt handler registered but a
remembered approval in the store, `request_approval` returns APPROVED — not
TIMEOUT — refuting the claim for arbitrary store states. -/
theorem C2_counterexample :
    (requestApproval approvedManagerState none
        "https://site.example" "Chrome" "fp1" 2 none 100 100000).resp.decision =
      ApprovalDecision.approved
    ∧ ApprovalDecision.approved ≠ ApprovalDecision.timeout := by
  decide

/-- Claim C2 (amended): with no prompt handler registered,
`request_approval` fails closed with TIMEOUT (never consulting any prompt)
whenever the `(origin, fingerprint)` pair has no remembered approval; when a
remembered approval is present it instead short-circuits to APPROVED. -/
theorem C2_no_handler_fail_closed (m : ApprovalManagerState)
    (origin browser fingerprint : String) (entryCount : Nat)
    (usernamePreview : Option String) (now nowMs : Nat) :
    (isApproved m.store origin fingerprint = false →
      (requestApproval m none origin browser fingerprint entryCount
          usernamePreview now nowMs).resp.decision = ApprovalDecision.timeout
      ∧ (requestApproval m none origin browser fingerprint entryCount
          usernamePreview now nowMs).promptInvoked = false)
    ∧ (isApproved m.store origin fingerprint = true →
      (requestApproval m none origin browser fingerprint entryCount
          usernamePreview now nowMs).resp.decision = ApprovalDecision.approved) := by
  constructor
  · intro h
    constructor <;> simp [requestApproval, h]
  · intro h
    simp [requestApproval, h]

/-- Witness for C2 at the empty manager state. -/
theorem C2_witness :
    isApproved emptyManagerState.store "https://site.example" "fp1" = false
    ∧ ((requestApproval emptyManagerState none "https://site.example" "Chrome"
          "fp1" 2 none 100 100000).resp.decision = ApprovalDecision.timeout
        ∧ (requestApproval emptyManagerState none "https://site.example"
            "Chrome" "fp1" 2 none 100 100000).promptInvoked = false) :=
  ⟨by decide,
    (C2_no_handler_fail_closed emptyManagerState "https://site.example" "Chrome"
      "fp1" 2 none 100 100000).1 (by decide)⟩

/-- Claim C6 (counterexample): for the same starting state (no active
pairing session) the HTTP pair handler answers 410 Gone while the
domain-socket pair handler answers 400 — the two transports do not report
the same status for the same logical outcome. -/
theorem C6_counterexample :
    pairOutcomeStatus
        (pairEndpoint noSessionState "123456" "abc" none 10 "tok1").1 = 410
    ∧ (socketPair noSessionState "123456" "abc" none 10 "tok1").1.1 = 400
    ∧ (410 : Nat) ≠ 400 := by
  decide

/-- Claim C6 (amended): for every starting state the HTTP and domain-socket
pair handlers agree on the success/failure classification (no session, code
mismatch, token issued), on the issued token, and on the resulting state —
but the socket reports 400 and 403 where HTTP reports 410 Gone and 401; and
the credentials-query handlers differ beyond framing because the socket
branch applies the shared match rule to the raw, non-lowercased origin. -/
theorem C6_pair_transport_agreement (st : BridgeState)
    (code fingerprint : String) (browser : Option String) (now : Nat)
    (freshToken : String) :
    (pairClass (pairOutcomeStatus
        (pairEndpoint st code fingerprint browser now freshToken).1) =
      pairClass (socketPair st code fingerprint browser now freshToken).1.1)
    ∧ ((pairEndpoint st code fingerprint browser now freshToken).2 =
        (socketPair st code fingerprint browser now freshToken).2)
    ∧ (∀ token expiresAt,
        (pairEndpoint st code fingerprint browser now freshToken).1 =
            PairOutcome.ok token expiresAt ↔
          (socketPair st code fingerprint browser now freshToken).1.2 =
            some (token, expiresAt))
    ∧ ((pairEndpoint st code fingerprint browser now freshToken).1 =
          PairOutcome.gone →
        pairOutcomeStatus
            (pairEndpoint st code fingerprint browser now freshToken).1 = 410
        ∧ (socketPair st code fingerprint browser now freshToken).1.1 = 400)
    ∧ ((pairEndpoint st code fingerprint browser now freshToken).1 =
          PairOutcome.unauthorized →
        pairOutcomeStatus
            (pairEndpoint st code fingerprint browser now freshToken).1 = 401
        ∧ (socketPair st code fingerprint browser now freshToken).1.1 = 403)
    ∧ (matchesOrigin (toLowerStr "GitHub.com".toList)
          "github.com".toList [] = true
        ∧ matchesOrigin "GitHub.com".toList "github.com".toList [] = false) := by
  cases hp : st.pairing with
  | none =>
    refine ⟨?_, ?_, ?_, ?_, ?_, by decide⟩ <;>
      simp [pairEndpoint, socketPair, hp, pairOutcomeStatus, pairClass]
  | some session =>
    by_cases h1 : session.expiresAt < now
    · refine ⟨?_, ?_, ?_, ?_, ?_, by decide⟩ <;>
        simp [pairEndpoint, socketPair, hp, h1, pairOutcomeStatus, pairClass]
    · by_cases h2 : code = session.code
      · subst h2
        refine ⟨?_, ?_, ?_, ?_, ?_, by decide⟩ <;>
          simp [pairEndpoint, socketPair, hp, h1, pairOutcomeStatus, pairClass,
            TokenStore.issueToken]
      · have h2' : session.code ≠ code := Ne.symm h2
        refine ⟨?_, ?_, ?_, ?_, ?_, by decide⟩ <;>
          simp [pairEndpoint, socketPair, hp, h1, h2, h2', pairOutcomeStatus,
            pairClass]

/-- Witness for C6 at a live session with the correct code. -/
theorem C6_witness :
    pairClass (pairOutcomeStatus
        (pairEndpoint liveSessionState "482913" "abc" none 10 "tok1").1) =
      pairClass (socketPair liveSessionState "482913" "abc" none 10 "tok1").1.1
    ∧ ((pairEndpoint liveSessionState "482913" "abc" none 10 "tok1").2 =
        (socketPair liveSessionState "482913" "abc" none 10 "tok1").2) :=
  ⟨(C6_pair_transport_agreement liveSessionState "482913" "abc" none 10
      "tok1").1,
    (C6_pair_transport_agreement liveSessionState "482913" "abc" none 10
      "tok1").2.1⟩

/-- Claim C7 (counterexample): for origin `github.com`, an entry whose notes
contain the domain's first label `github` (but not the origin or the bare
domain) and whose site is unrelated is *not* matched by the query handler,
although the claimed rule (site *or notes* containing origin, bare domain,
or first label) says it matches. -/
theorem C7_counterexample :
    queryMatches "github.com".toList [labelNotesEntry] = []
    ∧ specClaimMatches "github.com".toList labelNotesEntry.website
        labelNotesEntry.notes = true := by
  decide

/-- Claim C7 (amended): an entry is returned by the query's matching rule
iff its password decrypts and the lowercased site contains the lowercased
origin, its bare domain, or the domain's first label, or the lowercased
notes contain the origin or the bare domain — the first label is tested
against the site only, never the notes.  In particular origin `github.com`
matches website `https://github.com/login` and not website `example.com`. -/
theorem C7_matching_rule (rawOrigin : List Char) (vault : List VaultEntry)
    (e : VaultEntry) :
    (e ∈ queryMatches rawOrigin vault ↔
      e ∈ vault ∧ e.decryptOk = true ∧
        (SubStr (toLowerStr rawOrigin) (toLowerStr e.website) ∨
         SubStr (originDomainOf (toLowerStr rawOrigin)) (toLowerStr e.website) ∨
         SubStr (originNameOf (originDomainOf (toLowerStr rawOrigin)))
           (toLowerStr e.website) ∨
         SubStr (toLowerStr rawOrigin) (toLowerStr e.notes) ∨
         SubStr (originDomainOf (toLowerStr rawOrigin)) (toLowerStr e.notes)))
    ∧ queryMatches "github.com".toList [ghEntry] = [ghEntry]
    ∧ queryMatches "github.com".toList [exEntry] = [] := by
  refine ⟨?_, by decide, by decide⟩
  rw [queryMatches, List.mem_filter]
  simp only [Bool.and_eq_true, matchesOrigin, Bool.or_eq_true, isSub_iff]
  tauto

/-- Witness for C7: the `github.com` entry is matched by the amended rule. -/
theorem C7_witness :
    ghEntry ∈ queryMatches "github.com".toList [ghEntry] ↔
      ghEntry ∈ [ghEntry] ∧ ghEntry.decryptOk = true ∧
        (SubStr (toLowerStr "github.com".toList) (toLowerStr ghEntry.website) ∨
         SubStr (originDomainOf (toLowerStr "github.com".toList))
           (toLowerStr ghEntry.website) ∨
         SubStr (originNameOf (originDomainOf (toLowerStr "github.com".toList)))
           (toLowerStr ghEntry.website) ∨
         SubStr (toLowerStr "github.com".toList) (toLowerStr ghEntry.notes) ∨
         SubStr (originDomainOf (toLowerStr "github.com".toList))
           (toLowerStr ghEntry.notes)) :=
  (C7_matching_rule "github.com".toList [ghEntry] ghEntry).1

/-- Claim C8: a domain-socket message whose 4-byte big-endian length prefix
declares more than 10 MiB is rejected by `receive_message` (the `ValueError`
path) after consuming exactly the 4 header bytes — no body bytes are read
from the socket. -/
theorem C8_oversize_rejected (b0 b1 b2 b3 : Nat) (body : List Nat)
    (hbig : fromBytesBE [b0, b1, b2, b3] > MAX_MESSAGE_BYTES) :
    receiveMessage (b0 :: b1 :: b2 :: b3 :: body) =
      { result := .error (.messageTooLarge (fromBytesBE [b0, b1, b2, b3]))
        consumed := 4 } := by
  have htake : (b0 :: b1 :: b2 :: b3 :: body).take 4 = [b0, b1, b2, b3] := rfl
  simp [receiveMessage, recvExact, htake, hbig]

/-- Witness for C8: an 11 MiB declared length (prefix `00 B0 00 00`). -/
theorem C8_witness :
    fromBytesBE [0, 176, 0, 0] > MAX_MESSAGE_BYTES
    ∧ receiveMessage [0, 176, 0, 0, 7, 7] =
      { result := .error (.messageTooLarge (fromBytesBE [0, 176, 0, 0]))
        consumed := 4 } :=
  ⟨by decide, C8_oversize_rejected 0 176 0 0 [7, 7] (by decide)⟩

/-- Claim C4: over any model satisfying the AEAD/HKDF/JSON contracts of the
library primitives, `decrypt(encrypt(P, S), S) = P` for every payload `P`
and valid 32-byte secret `S`; and decryption of the envelope under a
different secret, or with a modified ciphertext, or with a modified tag,
fails (raises) instead of returning data. -/
theorem C4_roundtrip_fail_closed (M : AEADModel) (S Sother n : List Nat)
    (P : M.Payload) (_hS : validSecret S) (_hSother : validSecret Sother)
    (hne : Sother ≠ S) :
    PayloadEncryption.decrypt M S (PayloadEncryption.encrypt M S n P) = some P
    ∧ PayloadEncryption.decrypt M Sother (PayloadEncryption.encrypt M S n P) =
      none
    ∧ (∀ c', c' ≠ (PayloadEncryption.encrypt M S n P).ciphertext →
        PayloadEncryption.decrypt M S
          { ciphertext := c', nonce := n
            tag := (PayloadEncryption.encrypt M S n P).tag } = none)
    ∧ (∀ t', t' ≠ (PayloadEncryption.encrypt M S n P).tag →
        PayloadEncryption.decrypt M S
          { ciphertext := (PayloadEncryption.encrypt M S n P).ciphertext
            nonce := n, tag := t' } = none) := by
  refine ⟨?_, ?_, ?_, ?_⟩
  · simp [PayloadEncryption.encrypt, PayloadEncryption.decrypt, M.dec_correct,
      M.loads_dumps]
  · have hdec : M.dec (M.hkdf Sother n) n
        (M.encC (M.hkdf S n) n (M.dumps P))
        (M.encT (M.hkdf S n) n (M.dumps P)) = none := by
      apply M.dec_reject
      intro p hp
      exact M.tag_binds_secret S Sother n (M.dumps P) p (Ne.symm hne) hp.2
    simp [PayloadEncryption.encrypt, PayloadEncryption.decrypt, hdec]
  · intro c' hc'
    have hdec : M.dec (M.hkdf S n) n c'
        (M.encT (M.hkdf S n) n (M.dumps P)) = none := by
      apply M.dec_reject
      intro p hp
      have hpP : M.dumps P = p := M.encT_inj _ _ _ _ hp.2
      apply hc'
      show c' = (PayloadEncryption.encrypt M S n P).ciphertext
      rw [hp.1, ← hpP]
      rfl
    simp [PayloadEncryption.encrypt, PayloadEncryption.decrypt, hdec]
  · intro t' ht'
    have hdec : M.dec (M.hkdf S n) n
        (M.encC (M.hkdf S n) n (M.dumps P)) t' = none := by
      apply M.dec_reject
      intro p hp
      have hpP : M.dumps P = p := M.encC_inj _ _ _ _ hp.1
      apply ht'
      show t' = (PayloadEncryption.encrypt M S n P).tag
      rw [hp.2, ← hpP]
      rfl
    simp [PayloadEncryption.encrypt, PayloadEncryption.decrypt, hdec]

/-- Witness for C4 over the concrete AEAD instance: round trip succeeds and
decryption under a different 32-byte secret fails. -/
theorem C4_witness :
    validSecret (List.replicate 32 0)
    ∧ validSecret (List.replicate 32 1)
    ∧ List.replicate 32 1 ≠ List.replicate 32 0
    ∧ PayloadEncryption.decrypt concreteAEAD (List.replicate 32 0)
        (PayloadEncryption.encrypt concreteAEAD (List.replicate 32 0) [1, 2]
          (([7] : List Nat) : concreteAEAD.Payload)) = some [7]
    ∧ PayloadEncryption.decrypt concreteAEAD (List.replicate 32 1)
        (PayloadEncryption.encrypt concreteAEAD (List.replicate 32 0) [1, 2]
          (([7] : List Nat) : concreteAEAD.Payload)) = none :=
  ⟨by decide, by decide, by decide,
    (C4_roundtrip_fail_closed concreteAEAD (List.replicate 32 0)
      (List.replicate 32 1) [1, 2] (([7] : List Nat) : concreteAEAD.Payload)
      (by decide) (by decide) (by decide)).1,
    (C4_roundtrip_fail_closed concreteAEAD (List.replicate 32 0)
      (List.replicate 32 1) [1, 2] (([7] : List Nat) : concreteAEAD.Payload)
      (by decide) (by decide) (by decide)).2.1⟩

/-- Claim C9: `ensure_certificate` returns existing material unchanged (same
fingerprint, no side effects) while more than 30 days of validity remain,
and regenerates with a fresh fingerprint once 30 or fewer days remain; in
particular a 365-day certificate is returned identically 10 days after
generation and replaced (different fingerprint) 340 days after. -/
theorem C9_cert_lifecycle (st : CertState) (material : CertMaterial)
    (nowDays validityDays : Int) (freshFingerprint fpA fpB : Nat) :
    (st.material = some material → material.notAfterDays - nowDays > 30 →
      ensureCertificate st nowDays validityDays freshFingerprint =
        (material, st))
    ∧ (fpA ≠ fpB →
        ensureCertificate
            (ensureCertificate { material := none } 0 365 fpA).2 10 365 fpB =
          ((ensureCertificate { material := none } 0 365 fpA).1,
            (ensureCertificate { material := none } 0 365 fpA).2)
        ∧ (ensureCertificate { material := none } 0 365 fpA).1.fingerprint = fpA
        ∧ (ensureCertificate
            (ensureCertificate { material := none } 0 365 fpA).2 340 365
              fpB).1.fingerprint = fpB
        ∧ (ensureCertificate
            (ensureCertificate { material := none } 0 365 fpA).2 340 365
              fpB).1.fingerprint ≠ fpA) := by
  constructor
  · intro hm hdays
    simp [ensureCertificate, hm, hdays]
  · intro hne
    have hgen : ensureCertificate { material := none } 0 365 fpA =
        ({ fingerprint := fpA, notAfterDays := 365 },
          { material := some { fingerprint := fpA, notAfterDays := 365 } }) := by
      norm_num [ensureCertificate]
    refine ⟨?_, ?_, ?_, ?_⟩
    · rw [hgen]
      norm_num [ensureCertificate]
    · rw [hgen]
    · rw [hgen]
      norm_num [ensureCertificate]
    · rw [hgen]
      norm_num [ensureCertificate]
      exact Ne.symm hne
  -- close

/-- Witness for C9: concrete material with 400 days remaining is returned
unchanged, and the 340-day regeneration scenario with fingerprints 1 and 2. -/
theorem C9_witness :
    (({ material := some { fingerprint := 5, notAfterDays := 400 } } :
        CertState).material = some { fingerprint := 5, notAfterDays := 400 })
    ∧ ((400 : Int) - 0 > 30)
    ∧ ensureCertificate
        { material := some { fingerprint := 5, notAfterDays := 400 } } 0 365 9 =
      ({ fingerprint := 5, notAfterDays := 400 },
        { material := some { fingerprint := 5, notAfterDays := 400 } })
    ∧ (1 : Nat) ≠ 2
    ∧ (ensureCertificate
        (ensureCertificate { material := none } 0 365 1).2 340 365
          2).1.fingerprint = 2 :=
  ⟨rfl, by decide,
    (C9_cert_lifecycle
      { material := some { fingerprint := 5, notAfterDays := 400 } }
      { fingerprint := 5, notAfterDays := 400 } 0 365 9 1 2).1 rfl (by decide),
    by decide,
    ((C9_cert_lifecycle
      { material := some { fingerprint := 5, notAfterDays := 400 } }
      { fingerprint := 5, notAfterDays := 400 } 0 365 9 1 2).2
        (by decide)).2.2.1⟩

end PasswordManager
